import Mathlib

/-!
Verification of the mogptk MOSM model core against its design document.

The development shallowly embeds the numerical core of the repository:

* `MOSM.get_cross_params` (src/mogptk/mosm.py, lines 240-290): derivation of
  the pairwise cross parameters (covariance, mean, magnitude, phase, delay)
  of the Multi Output Spectral Mixture kernel from the per-component
  parameter store.
* `MOSM.plot_correlations` (src/mogptk/mosm.py, lines 187-230): the
  correlation-coefficient matrix derived from the cross parameters.
* `model.set_param`, `model.fix_params`, `model.unfix_params`
  (src/mogptk/model.py): the parameter store operations.
* `DataSet.get` (src/mogptk/dataset.py): channel lookup by integer index.

Machine floats are modelled by real numbers; every place where the Python
code can divide by zero (producing NaN or Infinity) is modelled by an
`Option`-valued division `fdiv` returning `none` exactly when the
denominator is zero, so that non-finite results are tracked explicitly.
-/

/-- Parameters of one mixture component `q` of the MOSM kernel, as held by
the parameter store `self.params[q]` for a model with `d` input dimensions
and `m` channels.  In the numpy code `mean` and `variance` and `delay` have
shape `(d, m)` (dimension index first, as in `params[q]["variance"][:, i]`),
while `magnitude` and `phase` have shape `(m,)`. -/
structure CompParams (d m : ℕ) where
  magnitude : Fin m → ℝ
  mean : Fin d → Fin m → ℝ
  variance : Fin d → Fin m → ℝ
  phase : Fin m → ℝ
  delay : Fin d → Fin m → ℝ

namespace MOSM

noncomputable section

variable {d m : ℕ}

/-- Division with explicit tracking of the IEEE non-finite case: numpy
division by zero yields NaN (for `0/0`) or signed Infinity (for `x/0`,
`x ≠ 0`); both are modelled by `none`. -/
def fdiv (x y : ℝ) : Option ℝ :=
  if y = 0 then none else some (x / y)

/-- Line 272 of mosm.py: `sv = var_i + var_j` (elementwise over the input
dimensions). -/
def sv (p : CompParams d m) (i j : Fin m) (n : Fin d) : ℝ :=
  p.variance n i + p.variance n j

/-- Line 275 of mosm.py: `cross_params["covariance"][i, j, :, q] =
2 * (var_i * var_j) / sv`, elementwise over the input dimensions, with the
non-finite case tracked. -/
def crossCovarianceF (p : CompParams d m) (i j : Fin m) (n : Fin d) : Option ℝ :=
  fdiv (2 * (p.variance n i * p.variance n j)) (sv p i j n)

/-- The finite value of the cross covariance (the value the code computes
whenever `sv ≠ 0`). -/
def crossCovariance (p : CompParams d m) (i j : Fin m) (n : Fin d) : ℝ :=
  2 * (p.variance n i * p.variance n j) / sv p i j n

/-- Line 277 of mosm.py: `cross_mean_num = var_i.dot(mu_j) + var_j.dot(mu_i)`.
For 1-D numpy arrays `.dot` is the inner product, summing over the input
dimensions, so `cross_mean_num` is a scalar. -/
def crossMeanNum (p : CompParams d m) (i j : Fin m) : ℝ :=
  (∑ n : Fin d, p.variance n i * p.mean n j) + ∑ n : Fin d, p.variance n j * p.mean n i

/-- Line 278 of mosm.py: `cross_params["mean"][i, j, :, q] = cross_mean_num / sv`:
the scalar numerator broadcast-divided by the elementwise `sv`, with the
non-finite case tracked. -/
def crossMeanF (p : CompParams d m) (i j : Fin m) (n : Fin d) : Option ℝ :=
  fdiv (crossMeanNum p i j) (sv p i j n)

/-- The finite value of the cross mean (the value the code computes
whenever `sv ≠ 0` in dimension `n`). -/
def crossMean (p : CompParams d m) (i j : Fin m) (n : Fin d) : ℝ :=
  crossMeanNum p i j / sv p i j n

/-- Lines 280-281 of mosm.py:
`exp_term = -1/4 * ((mu_i - mu_j)**2 / sv).sum()` followed by
`cross_params["magnitude"][i, j, q] = w_i * w_j * np.exp(exp_term)`. -/
def crossMagnitude (p : CompParams d m) (i j : Fin m) : ℝ :=
  p.magnitude i * p.magnitude j *
    Real.exp (-(1 / 4) * ∑ n : Fin d, (p.mean n i - p.mean n j) ^ 2 / sv p i j n)

/-- `np.subtract.outer(a, b)[i, j] = a[i] - b[j]`. -/
def subtractOuter (a b : Fin m → ℝ) (i j : Fin m) : ℝ :=
  a i - b j

/-- Line 284 of mosm.py: `cross_params["phase"][:, :, q] =
np.subtract.outer(phase_q, phase_q)`. -/
def crossPhase (p : CompParams d m) (i j : Fin m) : ℝ :=
  subtractOuter p.phase p.phase i j

/-- Line 288 of mosm.py: `cross_params["delay"][:, :, n, q] =
np.subtract.outer(delay_n_q, delay_n_q)` with `delay_n_q = delay[n, :]`. -/
def crossDelay (p : CompParams d m) (i j : Fin m) (n : Fin d) : ℝ :=
  subtractOuter (fun k => p.delay n k) (fun k => p.delay n k) i j

open scoped Classical in
/-- Float semantics of the cross magnitude of lines 280-281 of mosm.py,
with the non-finite case tracked.  The summand `(mu_i[n] - mu_j[n])**2 / sv[n]`
is NaN when `sv[n] = 0` and the means coincide in dimension `n` (`0/0`),
and `+Infinity` when `sv[n] = 0` and the means differ (positive over zero);
a NaN poisons the sum and the final product, while a sum of `+Infinity`
gives `exp_term = -Infinity` and `np.exp(-Infinity) = 0.0`, so the entry is
the finite `w_i * w_j * 0 = 0`.  With every `sv[n]` nonzero the entry is
the finite closed form `crossMagnitude`. -/
def crossMagnitudeF (p : CompParams d m) (i j : Fin m) : Option ℝ :=
  if ∃ n, sv p i j n = 0 ∧ p.mean n i = p.mean n j then none
  else if ∃ n, sv p i j n = 0 then some 0
  else some (crossMagnitude p i j)

/-- Tracked `np.sqrt`: the square root of a negative number is NaN. -/
def sqrtF (x : ℝ) : Option ℝ :=
  if x < 0 then none else some (Real.sqrt x)

/-!
`plot_correlations` (mosm.py lines 187-230) slices the cross-parameter
tensor at input dimension 0, hence the parameter store is indexed over
`d + 1` input dimensions below.  A store for a model with `Q` components is
a family `Fin Q → CompParams (d+1) m`.  All derived quantities keep the
`Option` tracking: a NaN or Infinity produced by any component propagates
(`Option.bind`), exactly as non-finite floats propagate through numpy
arithmetic, sums and `matplotlib` input.
-/

/-- Line 206 of mosm.py: `alpha = magn / np.sqrt(2 * np.pi * cov)`, where
`magn = cross_params["magnitude"]` and
`cov = cross_params["covariance"][:, :, 0, :]`: non-finite whenever the
magnitude or covariance entry already is, whenever `2π·cov` is negative
(NaN square root), or whenever the square root is zero (division by zero). -/
def alphaQF {Q : ℕ} (P : Fin Q → CompParams (d + 1) m) (i j : Fin m) (q : Fin Q) : Option ℝ :=
  (crossMagnitudeF (P q) i j).bind fun magn =>
    (crossCovarianceF (P q) i j 0).bind fun cov =>
      (sqrtF (2 * Real.pi * cov)).bind fun s => fdiv magn s

/-- A numpy sum over the component axis: finite with the expected value
when every summand is finite, non-finite as soon as any summand is. -/
def osum {Q : ℕ} (f : Fin Q → Option ℝ) : Option ℝ :=
  if ∀ q, (f q).isSome = true then some (∑ q, (f q).getD 0) else none

/-- Line 208 of mosm.py: `np.diagonal(alpha.sum(2))[i]`, the per-channel
sum of `alpha` over the components. -/
def alphaDiagSumF {Q : ℕ} (P : Fin Q → CompParams (d + 1) m) (i : Fin m) : Option ℝ :=
  osum fun q => alphaQF P i i q

/-- Lines 208-215 of mosm.py, before normalization: the diagonal is filled
with `np.diagonal(alpha.sum(2))`; an off-diagonal entry is
`(alpha[i, j, :] * corr).sum()` with
`corr = np.exp(-0.5 * delay**2 * cov) * np.cos(delay * mean + phase)`
taken at input dimension 0. -/
def corrRawF {Q : ℕ} (P : Fin Q → CompParams (d + 1) m) (i j : Fin m) : Option ℝ :=
  if i = j then alphaDiagSumF P i
  else
    osum fun q =>
      (alphaQF P i j q).bind fun a =>
        (crossCovarianceF (P q) i j 0).bind fun cov =>
          (crossMeanF (P q) i j 0).bind fun mu =>
            some (a * (Real.exp (-(1 / 2) * crossDelay (P q) i j 0 ^ 2 * cov) *
              Real.cos (crossDelay (P q) i j 0 * mu + crossPhase (P q) i j)))

/-- Lines 216-217 of mosm.py: every entry, the diagonal included, is divided
by `norm = np.sqrt(np.diagonal(alpha.sum(2))[i]) * np.sqrt(np.diagonal(alpha.sum(2))[j])`,
with the square roots and the division tracked. -/
def corrCoefMatrixF {Q : ℕ} (P : Fin Q → CompParams (d + 1) m) (i j : Fin m) : Option ℝ :=
  (corrRawF P i j).bind fun raw =>
    (alphaDiagSumF P i).bind fun si =>
      (alphaDiagSumF P j).bind fun sj =>
        (sqrtF si).bind fun ri =>
          (sqrtF sj).bind fun rj => fdiv raw (ri * rj)

end

end MOSM

/-!
Embedding of the parameter store operations of `model` (src/mogptk/model.py)
and of `DataSet.get` (src/mogptk/dataset.py).  These are discrete and fully
executable.  Python exceptions are modelled by `Except PyErr`.
-/

/-- The error outcomes raised by the embedded Python code.  The first two
are the generic `Exception`s of `model.set_param` (named
`InvalidComponentError` and `UnknownParameterError` by the design document),
`valueError` is the `ValueError` of `list.remove` and of `DataSet.get`, and
`indexError` is the `IndexError` of out-of-range Python list indexing. -/
inductive PyErr where
  | invalidComponent
  | unknownParameter
  | valueError
  | indexError
deriving DecidableEq, Repr

namespace ModelPy

/-- A Python dict mapping parameter names to values, as an association list. -/
def ParamDict (V : Type) : Type := List (String × V)

/-- The keys of a dict, as tested by the Python `in` operator. -/
def dictKeys {V : Type} (dict : ParamDict V) : List String :=
  dict.map Prod.fst

/-- Python dict assignment `dict[key] = v` for a key already present:
the value bound to `key` is replaced. -/
def dictSet {V : Type} (dict : ParamDict V) (key : String) (v : V) : ParamDict V :=
  dict.map (fun e => if e.1 = key then (key, v) else e)

/-- Line 35 of model.py, in `model.__init__`: `self.params = []` — the
store starts with no component dicts at all. -/
def initParams (V : Type) : List (ParamDict V) := []

/-- Lines 72-88 of model.py, `model.set_param(q, key, val)`:
raises when `q < 0 or len(self.params) <= q`, then when
`key not in self.params[q]`, and otherwise performs
`self.params[q][key] = val`. -/
def setParam {V : Type} (params : List (ParamDict V)) (q : ℤ) (key : String) (v : V) :
    Except PyErr (List (ParamDict V)) :=
  if q < 0 ∨ (params.length : ℤ) ≤ q then .error .invalidComponent
  else if key ∈ dictKeys (params.getD q.toNat []) then
    .ok (params.set q.toNat (dictSet (params.getD q.toNat []) key v))
  else .error .unknownParameter

/-- Line 91 of model.py, `model.fix_params(key)`:
`self.fixed_params.append(key)`. -/
def fix_params (fixed : List String) (key : String) : List String :=
  fixed ++ [key]

/-- Line 94 of model.py, `model.unfix_params(key)`:
`self.fixed_params.remove(key)` — Python `list.remove` deletes the first
occurrence and raises `ValueError` when the element is absent. -/
def unfix_params (fixed : List String) (key : String) : Except PyErr (List String) :=
  if key ∈ fixed then .ok (fixed.erase key) else .error .valueError

/-- The optimizable-parameter set derived from the fixed-parameter set:
`model.build` (lines 145-156 of model.py) marks exactly the parameters
whose name is a member of `self.fixed_params` as not trainable, so a
parameter name stays optimizable iff it is not a member. -/
def optimizable (names fixed : List String) : List String :=
  names.filter (fun u => decide (u ∉ fixed))

end ModelPy

namespace DataSetPy

/-- Python list indexing `l[i]` for an integer `i`: non-negative indices
count from the front, negative indices from the back, and anything out of
range raises `IndexError` (modelled by `none`). -/
def pyIndex {α : Type} (l : List α) (i : ℤ) : Option α :=
  if 0 ≤ i then l.get? i.toNat
  else if 0 ≤ i + l.length then l.get? (i + l.length).toNat
  else none

/-- Lines 244-264 of dataset.py, `DataSet.get(index)` restricted to the
integer branch: `if index < len(self.channels): return self.channels[index]`,
and when the guard fails the function falls through to
`raise ValueError(...)`. -/
def get {α : Type} (channels : List α) (index : ℤ) : Except PyErr α :=
  if index < (channels.length : ℤ) then
    match pyIndex channels index with
    | some c => .ok c
    | none => .error .indexError
  else .error .valueError

end DataSetPy

/-!
Facts about the constructor call chain of the model classes, read off the
source text: `model.__init__(self, name, data, Q)` (model.py line 30)
requires three arguments besides `self`, while `MOSM.__init__` calls
`model.__init__(self, name, dataset)` (mosm.py line 21) with only two, so
the call raises `TypeError` before any store is created.
-/

/-- Argument count (after `self`) of `model.__init__` at model.py line 30:
`name`, `data`, `Q`. -/
def modelInitArity : ℕ := 3

/-- Argument count (after `self`) passed to `model.__init__` by
`MOSM.__init__` at mosm.py line 21: `name`, `dataset`. -/
def mosmInitCallArgs : ℕ := 2

/-! Concrete parameter stores used as test inputs for the claims. -/

/-- A degenerate store: one input dimension, two channels, both with zero
variance in the single component, and channel means 1 and 3. -/
noncomputable def pZero : CompParams 1 2 :=
  { magnitude := ![1, 1]
    mean := ![![1, 3]]
    variance := ![![0, 0]]
    phase := ![0, 0]
    delay := ![![0, 0]] }

/-- A store with two input dimensions and two channels, all variances 1,
channel 0 mean vector `(0, 2)` and channel 1 mean vector `(0, 0)` (the
`mean` field is input-dimension major). -/
noncomputable def pDot : CompParams 2 2 :=
  { magnitude := ![1, 1]
    mean := ![![0, 0], ![2, 0]]
    variance := ![![1, 1], ![1, 1]]
    phase := ![0, 0]
    delay := ![![0, 0], ![0, 0]] }

/-- A store with one input dimension and two channels, phases 0 and 1 and
delays 0 and 2. -/
noncomputable def pSign : CompParams 1 2 :=
  { magnitude := ![1, 1]
    mean := ![![0, 0]]
    variance := ![![1, 1]]
    phase := ![0, 1]
    delay := ![![0, 2]] }

/-- A nondegenerate store with one input dimension and two channels,
variances 1 and 2. -/
noncomputable def pW : CompParams 1 2 :=
  { magnitude := ![3, 5]
    mean := ![![1, 2]]
    variance := ![![1, 2]]
    phase := ![0, 0]
    delay := ![![0, 0]] }

/-- A single-channel, single-component store whose variance is `1/(2π)`, so
that its diagonal correlation contribution `alpha` evaluates to the
magnitude squared. -/
noncomputable def pCorr : CompParams 1 1 :=
  { magnitude := ![2]
    mean := ![![0]]
    variance := ![![(2 * Real.pi)⁻¹]]
    phase := ![0]
    delay := ![![0]] }

/-- The one-component store family built from `pCorr`. -/
noncomputable def pCorrStore : Fin 1 → CompParams 1 1 := fun _ => pCorr

/-- A populated parameter store for a `Q = 1` model: the mixture component
dict at index 0 and the noise dict at index 1, matching the `Q + 1` kernels
built at mosm.py lines 26-35 (Q spectral-mixture kernels plus one `Noise`
kernel). -/
def store2 : List (ModelPy.ParamDict ℕ) :=
  [[("magnitude", 0), ("mean", 0), ("variance", 0), ("phase", 0), ("delay", 0)],
   [("noise", 0)]]

/-!
Theorems.  Each claim of the design document is settled by one theorem
below, with witnesses for the theorems that carry hypotheses and
counterexamples where the claim fails on the code.
-/

/-- Evaluation helper: the cross covariance of `pCorr` at the diagonal is
the variance `1/(2π)` itself. -/
theorem pCorr_cov : MOSM.crossCovariance (pCorrStore 0) (0 : Fin 1) 0 0 = (2 * Real.pi)⁻¹ := by
  have hpi : (Real.pi : ℝ) ≠ 0 := Real.pi_ne_zero
  simp only [MOSM.crossCovariance, MOSM.sv, pCorrStore, pCorr]
  simp only [Matrix.cons_val_zero, Matrix.cons_val_fin_one]
  field_simp
  ring

/-- Evaluation helper: the diagonal cross magnitude of `pCorr` is the
squared magnitude `4`. -/
theorem pCorr_magn : MOSM.crossMagnitude (pCorrStore 0) (0 : Fin 1) 0 = 4 := by
  simp [MOSM.crossMagnitude, pCorrStore, pCorr, Fin.sum_univ_one]
  norm_num

/-- Evaluation helper: `sv` is nonzero at the diagonal of `pCorr`. -/
theorem pCorr_sv_ne (n : Fin 1) : MOSM.sv (pCorrStore 0) (0 : Fin 1) 0 n ≠ 0 := by
  fin_cases n
  simp only [MOSM.sv, pCorrStore, pCorr, Matrix.cons_val_zero, Matrix.cons_val_fin_one]
  positivity

/-- Evaluation helper: the tracked diagonal cross covariance of `pCorr` is
the finite value `1/(2π)`. -/
theorem pCorr_covF :
    MOSM.crossCovarianceF (pCorrStore 0) (0 : Fin 1) 0 0 = some ((2 * Real.pi)⁻¹) := by
  rw [MOSM.crossCovarianceF, MOSM.fdiv, if_neg (pCorr_sv_ne 0)]
  exact congrArg some pCorr_cov

/-- Evaluation helper: the tracked diagonal cross magnitude of `pCorr` is
the finite value `4`. -/
theorem pCorr_magnF : MOSM.crossMagnitudeF (pCorrStore 0) (0 : Fin 1) 0 = some 4 := by
  rw [MOSM.crossMagnitudeF, if_neg, if_neg]
  · exact congrArg some pCorr_magn
  · rintro ⟨n, hn⟩
    exact pCorr_sv_ne n hn
  · rintro ⟨n, hn, -⟩
    exact pCorr_sv_ne n hn

/-- Evaluation helper: the diagonal `alpha` contribution of `pCorr` is the
finite value `4`, because `2π · covariance = 1`. -/
theorem pCorr_alphaF : MOSM.alphaQF pCorrStore (0 : Fin 1) 0 0 = some 4 := by
  rw [MOSM.alphaQF, pCorr_magnF, pCorr_covF]
  simp only [Option.some_bind]
  rw [mul_inv_cancel₀ (by positivity : (2 * Real.pi) ≠ 0)]
  rw [MOSM.sqrtF, if_neg (by norm_num : ¬(1:ℝ) < 0), Real.sqrt_one]
  simp only [Option.some_bind]
  rw [MOSM.fdiv, if_neg (by norm_num : (1:ℝ) ≠ 0)]
  norm_num

/-- Evaluation helper: the per-channel `alpha` sum of `pCorrStore` is the
finite value `4`. -/
theorem pCorr_alphaSumF : MOSM.alphaDiagSumF pCorrStore (0 : Fin 1) = some 4 := by
  rw [MOSM.alphaDiagSumF, MOSM.osum, if_pos]
  · rw [Fin.sum_univ_one, pCorr_alphaF]
    rfl
  · intro q
    rw [Subsingleton.elim q 0, pCorr_alphaF]
    rfl

/-- Evaluation helper: the diagonal entry of the normalized
correlation-coefficient matrix of `pCorrStore` is the finite value `1`,
not the `alpha` sum `4`. -/
theorem pCorr_corrDiagF : MOSM.corrCoefMatrixF pCorrStore (0 : Fin 1) 0 = some 1 := by
  have hraw : MOSM.corrRawF pCorrStore (0 : Fin 1) 0 = some 4 := by
    rw [MOSM.corrRawF, if_pos rfl, pCorr_alphaSumF]
  rw [MOSM.corrCoefMatrixF, hraw, pCorr_alphaSumF]
  simp only [Option.some_bind]
  rw [MOSM.sqrtF, if_neg (by norm_num : ¬(4:ℝ) < 0)]
  simp only [Option.some_bind]
  rw [show Real.sqrt 4 = 2 by
    rw [show (4:ℝ) = 2 ^ 2 by norm_num, Real.sqrt_sq (by norm_num)]]
  rw [MOSM.fdiv, if_neg (by norm_num : (2:ℝ) * 2 ≠ 0)]
  norm_num

/-- C1 counterexample: at the store `pZero`, whose two channels both have
zero variance in every input dimension, `get_cross_params` is NOT guarded:
the covariance and mean entries are `0/0` divisions, i.e. NaN (modelled by
`none`), and in particular the covariance is not the claimed `0` and the
mean is not the claimed average `(1 + 3)/2` of the two channel means. -/
theorem zero_variance_cross_params_nan :
    MOSM.crossCovarianceF pZero 0 1 0 = none ∧
    MOSM.crossMeanF pZero 0 1 0 = none ∧
    MOSM.crossCovarianceF pZero 0 1 0 ≠ some 0 ∧
    MOSM.crossMeanF pZero 0 1 0 ≠ some ((pZero.mean 0 0 + pZero.mean 0 1) / 2) := by
  refine ⟨?_, ?_, ?_, ?_⟩ <;>
    simp [MOSM.crossCovarianceF, MOSM.crossMeanF, MOSM.fdiv, MOSM.sv, pZero]

/-- C1 amended: the cross-parameter derivation is not guarded against
`sv = 0`.  Whenever both channels have zero variance in every input
dimension, the division by `sv` makes every returned covariance and mean
entry of that channel pair non-finite (NaN), rather than the guarded values
covariance `0` and mean equal to the average of the two means. -/
theorem zero_variance_not_guarded {d m : ℕ} (p : CompParams d m) (i j : Fin m)
    (hi : ∀ n, p.variance n i = 0) (hj : ∀ n, p.variance n j = 0) (n : Fin d) :
    MOSM.crossCovarianceF p i j n = none ∧ MOSM.crossMeanF p i j n = none := by
  have hsv : MOSM.sv p i j n = 0 := by
    rw [MOSM.sv, hi n, hj n, add_zero]
  exact ⟨by simp [MOSM.crossCovarianceF, MOSM.fdiv, hsv],
    by simp [MOSM.crossMeanF, MOSM.fdiv, hsv]⟩

/-- C1 witness: the amended statement applied to the concrete degenerate
store `pZero`. -/
theorem zero_variance_not_guarded_witness :
    (∀ n, pZero.variance n 0 = 0) ∧ (∀ n, pZero.variance n 1 = 0) ∧
    (MOSM.crossCovarianceF pZero 0 1 0 = none ∧ MOSM.crossMeanF pZero 0 1 0 = none) := by
  have h0 : ∀ n, pZero.variance n 0 = 0 := by
    intro n
    fin_cases n
    simp [pZero]
  have h1 : ∀ n, pZero.variance n 1 = 0 := by
    intro n
    fin_cases n
    simp [pZero]
  exact ⟨h0, h1, zero_variance_not_guarded pZero 0 1 h0 h1 0⟩

/-- C2: the code computes the cross-mean numerator with `var_i.dot(mu_j) +
var_j.dot(mu_i)`, an inner product summed over the input dimensions, and
broadcasts that scalar over `sv`, instead of applying the claimed formula
elementwise per input dimension.  At the store `pDot` (all variances 1,
channel 0 means `(0, 2)`, channel 1 means `(0, 0)`), dimension 0 of the
cross mean evaluates to `1`, while the claimed per-dimension formula
`(variance[q,i,0]*mean[q,j,0] + variance[q,j,0]*mean[q,i,0]) / sv[0]`
evaluates to `0`. -/
theorem cross_mean_dot_product_bug :
    MOSM.crossMean pDot 0 1 0 = 1 ∧
    (pDot.variance 0 0 * pDot.mean 0 1 + pDot.variance 0 1 * pDot.mean 0 0) /
      (pDot.variance 0 0 + pDot.variance 0 1) = 0 ∧
    (1 : ℝ) ≠ 0 := by
  refine ⟨?_, ?_, by norm_num⟩
  · simp [MOSM.crossMean, MOSM.crossMeanNum, MOSM.sv, pDot, Fin.sum_univ_two]
    norm_num
  · simp [pDot]

/-- C3 counterexample: `np.subtract.outer(phase_q, phase_q)[i, j]` is
`phase[q,i] - phase[q,j]`, not the claimed `phase[q,j] - phase[q,i]`.  At
the store `pSign` (phases 0 and 1, delays 0 and 2) the returned cross phase
at `(0, 1)` is `-1` while the claim demands `1`, and the returned cross
delay is `-2` while the claim demands `2`. -/
theorem cross_phase_delay_sign_counterexample :
    MOSM.crossPhase pSign 0 1 = -1 ∧
    pSign.phase 1 - pSign.phase 0 = 1 ∧
    MOSM.crossDelay pSign 0 1 0 = -2 ∧
    pSign.delay 0 1 - pSign.delay 0 0 = 2 ∧
    (-1 : ℝ) ≠ 1 ∧ (-2 : ℝ) ≠ 2 := by
  refine ⟨?_, ?_, ?_, ?_, by norm_num, by norm_num⟩ <;>
    simp [MOSM.crossPhase, MOSM.crossDelay, MOSM.subtractOuter, pSign]

/-- C3 amended: for every store, component and channel pair, the returned
cross phase is `phase[q,i] - phase[q,j]` (channel `i` minus channel `j`)
and the returned cross delay is `delay[q,i,n] - delay[q,j,n]`, the opposite
orientation of the claimed formulas. -/
theorem cross_phase_delay_sign {d m : ℕ} (p : CompParams d m) (i j : Fin m) (n : Fin d) :
    MOSM.crossPhase p i j = p.phase i - p.phase j ∧
    MOSM.crossDelay p i j n = p.delay n i - p.delay n j :=
  ⟨rfl, rfl⟩

/-- C4: whenever `sv` is nonzero in every input dimension, the returned
cross covariance is finite and equals
`2 * variance[q,i,n] * variance[q,j,n] / sv[n]` elementwise, and the
returned cross magnitude equals
`magnitude[q,i] * magnitude[q,j] * exp(-1/4 * sum_n (mean[q,i,n] - mean[q,j,n])^2 / sv[n])`. -/
theorem cross_covariance_magnitude_formula {d m : ℕ} (p : CompParams d m) (i j : Fin m)
    (h : ∀ n, MOSM.sv p i j n ≠ 0) :
    (∀ n, MOSM.crossCovarianceF p i j n =
      some (2 * (p.variance n i * p.variance n j) / (p.variance n i + p.variance n j))) ∧
    MOSM.crossMagnitude p i j = p.magnitude i * p.magnitude j *
      Real.exp (-(1 / 4) * ∑ n : Fin d,
        (p.mean n i - p.mean n j) ^ 2 / (p.variance n i + p.variance n j)) := by
  constructor
  · intro n
    simp only [MOSM.crossCovarianceF, MOSM.fdiv, MOSM.sv] at *
    rw [if_neg (h n)]
  · rfl

/-- C4 witness: the formula theorem applied to the concrete nondegenerate
store `pW` with variances 1 and 2. -/
theorem cross_covariance_magnitude_formula_witness :
    (∀ n, MOSM.sv pW 0 1 n ≠ 0) ∧
    ((∀ n, MOSM.crossCovarianceF pW 0 1 n =
      some (2 * (pW.variance n 0 * pW.variance n 1) / (pW.variance n 0 + pW.variance n 1))) ∧
    MOSM.crossMagnitude pW 0 1 = pW.magnitude 0 * pW.magnitude 1 *
      Real.exp (-(1 / 4) * ∑ n : Fin 1,
        (pW.mean n 0 - pW.mean n 1) ^ 2 / (pW.variance n 0 + pW.variance n 1))) := by
  have hw : ∀ n, MOSM.sv pW 0 1 n ≠ 0 := by
    intro n
    fin_cases n
    simp [MOSM.sv, pW]
    norm_num
  exact ⟨hw, cross_covariance_magnitude_formula pW 0 1 hw⟩

/-- C5: the diagonal identity fails for the cross mean when there is more
than one input dimension, because of the dot-product numerator.  At the
store `pDot`, the diagonal `(0, 0)` satisfies the covariance, phase and
delay identities, but the returned diagonal cross mean in dimension 0 is
`2` while the stored channel mean is `0`. -/
theorem diagonal_mean_identity_bug :
    MOSM.crossCovariance pDot 0 0 0 = pDot.variance 0 0 ∧
    MOSM.crossPhase pDot 0 0 = 0 ∧
    MOSM.crossDelay pDot 0 0 0 = 0 ∧
    MOSM.crossMean pDot 0 0 0 = 2 ∧
    pDot.mean 0 0 = 0 ∧
    (2 : ℝ) ≠ 0 := by
  refine ⟨?_, ?_, ?_, ?_, ?_, by norm_num⟩
  · simp [MOSM.crossCovariance, MOSM.sv, pDot]
    norm_num
  · simp [MOSM.crossPhase, MOSM.subtractOuter, pDot]
  · simp [MOSM.crossDelay, MOSM.subtractOuter, pDot]
  · simp [MOSM.crossMean, MOSM.crossMeanNum, MOSM.sv, pDot, Fin.sum_univ_two]
    norm_num
  · simp [pDot]

/-- C6 counterexample: at the one-channel, one-component store `pCorrStore`
every float in the pipeline is finite and the per-component `alpha` sum is
`4`, yet the diagonal entry of the correlation-coefficient matrix computed
by `plot_correlations` is `1`, because the normalization by
`sqrt(s_i) * sqrt(s_j)` is applied to the diagonal as well. -/
theorem corr_matrix_diagonal_counterexample :
    MOSM.corrCoefMatrixF pCorrStore 0 0 = some 1 ∧
    MOSM.alphaDiagSumF pCorrStore 0 = some 4 ∧
    some (1 : ℝ) ≠ some 4 :=
  ⟨pCorr_corrDiagF, pCorr_alphaSumF, by simp⟩

/-- C6 amended: in the matrix returned by `plot_correlations` every
diagonal entry equals the sum of `alpha` over the components divided by
itself — that is, `1` — whenever that sum is a finite float (no component
divides by zero or takes the square root of a negative number) and is
positive, since the normalization divides the diagonal by
`sqrt(s_i) * sqrt(s_i) = s_i`. -/
theorem corr_matrix_diagonal_normalized {d m Q : ℕ}
    (P : Fin Q → CompParams (d + 1) m) (i : Fin m) (s : ℝ)
    (hs : MOSM.alphaDiagSumF P i = some s) (hpos : 0 < s) :
    MOSM.corrCoefMatrixF P i i = some 1 := by
  have hraw : MOSM.corrRawF P i i = some s := by
    rw [MOSM.corrRawF, if_pos rfl, hs]
  rw [MOSM.corrCoefMatrixF, hraw, hs]
  simp only [Option.some_bind]
  rw [MOSM.sqrtF, if_neg (not_lt.mpr hpos.le)]
  simp only [Option.some_bind]
  rw [MOSM.fdiv, Real.mul_self_sqrt hpos.le, if_neg (ne_of_gt hpos),
    div_self (ne_of_gt hpos)]

/-- C6 witness: the amended statement applied to the concrete store
`pCorrStore`, whose `alpha` sum is the finite float `4 > 0`. -/
theorem corr_matrix_diagonal_normalized_witness :
    MOSM.alphaDiagSumF pCorrStore 0 = some 4 ∧ (0 : ℝ) < 4 ∧
    MOSM.corrCoefMatrixF pCorrStore 0 0 = some 1 :=
  ⟨pCorr_alphaSumF, by norm_num,
    corr_matrix_diagonal_normalized pCorrStore 0 4 pCorr_alphaSumF (by norm_num)⟩

/-- C7: constructing the model does not create a store with `Q` mixture
components.  `model.__init__` takes three arguments besides `self` while
`MOSM.__init__` passes two (so the construction raises `TypeError`), and
the store `model.__init__` would create is the empty list, so even then
`set_param` rejects every component index: for `Q = 1`,
`set_param(0, "magnitude", ...)` on the freshly initialized store raises
the component error instead of storing the value. -/
theorem init_param_store_empty :
    mosmInitCallArgs ≠ modelInitArity ∧
    (ModelPy.initParams ℝ).length = 0 ∧
    ModelPy.setParam (ModelPy.initParams ℝ) 0 "magnitude" 1 =
      .error .invalidComponent := by
  refine ⟨by decide, rfl, rfl⟩

/-- C8 counterexample: on the populated store `store2` of a `Q = 1` model
(one mixture-component dict plus the noise dict), `set_param(1, "noise", 7)`
succeeds and stores the value, although component index `1 = Q` lies
outside `[0, Q)` and the claim demands an `InvalidComponentError` there. -/
theorem set_param_noise_at_Q_succeeds :
    ModelPy.setParam store2 1 "noise" 7 =
      .ok [[("magnitude", 0), ("mean", 0), ("variance", 0), ("phase", 0), ("delay", 0)],
        [("noise", 7)]] ∧
    ¬ (0 ≤ (1 : ℤ) ∧ (1 : ℤ) < 1) :=
  ⟨rfl, by omega⟩

/-- C8 amended: `set_param(q, key, value)` raises the component error
exactly when `q` lies outside `[0, len(params))` — the current store
length, which is `Q + 1` on a populated store (the `Q` mixture components
plus the noise component) — raises the unknown-parameter error exactly
when `q` is in range but `key` is not an existing key of `params[q]`, and
otherwise stores the value at `params[q][key]`. -/
theorem set_param_error_characterization {V : Type}
    (params : List (ModelPy.ParamDict V)) (q : ℤ) (key : String) (v : V) :
    (ModelPy.setParam params q key v = .error .invalidComponent ↔
      q < 0 ∨ (params.length : ℤ) ≤ q) ∧
    (ModelPy.setParam params q key v = .error .unknownParameter ↔
      (0 ≤ q ∧ q < (params.length : ℤ) ∧ key ∉ ModelPy.dictKeys (params.getD q.toNat []))) ∧
    (0 ≤ q ∧ q < (params.length : ℤ) ∧ key ∈ ModelPy.dictKeys (params.getD q.toNat []) →
      ModelPy.setParam params q key v =
        .ok (params.set q.toNat (ModelPy.dictSet (params.getD q.toNat []) key v))) := by
  unfold ModelPy.setParam
  by_cases hb : q < 0 ∨ (params.length : ℤ) ≤ q
  · rw [if_pos hb]
    refine ⟨⟨fun _ => hb, fun _ => rfl⟩, ⟨fun h => absurd h (by simp), fun h => ?_⟩,
      fun h => ?_⟩
    · exfalso
      have h0 := h.1
      have h1 := h.2.1
      rcases hb with hb | hb <;> omega
    · exfalso
      have h0 := h.1
      have h1 := h.2.1
      rcases hb with hb | hb <;> omega
  · rw [if_neg hb]
    push_neg at hb
    by_cases hk : key ∈ ModelPy.dictKeys (params.getD q.toNat [])
    · rw [if_pos hk]
      refine ⟨⟨fun h => absurd h (by simp), fun h => ?_⟩,
        ⟨fun h => absurd h (by simp), fun h => absurd hk h.2.2⟩, fun _ => rfl⟩
      exfalso
      have h0 := hb.1
      have h1 := hb.2
      rcases h with h | h <;> omega
    · rw [if_neg hk]
      refine ⟨⟨fun h => absurd h (by simp), fun h => ?_⟩,
        ⟨fun _ => ⟨hb.1, hb.2, hk⟩, fun _ => rfl⟩, fun h => absurd h.2.2 hk⟩
      exfalso
      have h0 := hb.1
      have h1 := hb.2
      rcases h with h | h <;> omega

/-- C8 witness: the storing branch of the characterization applied to the
populated store `store2` at component 0 and key `mean`. -/
theorem set_param_error_characterization_witness :
    ModelPy.setParam store2 0 "mean" 9 =
      .ok (store2.set (0 : ℤ).toNat
        (ModelPy.dictSet (store2.getD (0 : ℤ).toNat []) "mean" 9)) :=
  (set_param_error_characterization store2 0 "mean" 9).2.2 (by decide)

/-- C9: fixing a parameter name and then unfixing it restores the
fixed-parameter set exactly: the `unfix` succeeds, membership in the fixed
list is restored for every name (also when the key was already present, in
which case `append` adds a duplicate and `remove` deletes the first
occurrence), and therefore the derived optimizable-parameter set is
unchanged. -/
theorem fix_unfix_round_trip (fixed : List String) (key : String) :
    ModelPy.unfix_params (ModelPy.fix_params fixed key) key =
      .ok ((fixed ++ [key]).erase key) ∧
    (∀ x, x ∈ (fixed ++ [key]).erase key ↔ x ∈ fixed) ∧
    (∀ names, ModelPy.optimizable names ((fixed ++ [key]).erase key) =
      ModelPy.optimizable names fixed) := by
  have hmem : key ∈ ModelPy.fix_params fixed key := by
    simp [ModelPy.fix_params]
  have hcnt : List.count key ((fixed ++ [key]).erase key) = List.count key fixed := by
    rw [List.count_erase_self]
    simp [List.count_append, List.count_cons]
  have hset : ∀ x, x ∈ (fixed ++ [key]).erase key ↔ x ∈ fixed := by
    intro x
    by_cases hx : x = key
    · subst hx
      constructor
      · intro h
        exact List.count_pos_iff.mp (by rw [← hcnt]; exact List.count_pos_iff.mpr h)
      · intro h
        exact List.count_pos_iff.mp (by rw [hcnt]; exact List.count_pos_iff.mpr h)
    · rw [List.mem_erase_of_ne hx]
      simp [hx]
  refine ⟨?_, hset, ?_⟩
  · unfold ModelPy.unfix_params
    rw [if_pos hmem]
    rfl
  · intro names
    unfold ModelPy.optimizable
    apply List.filter_congr
    intro u _
    simp only [decide_eq_decide]
    have := hset u
    tauto

/-- C10: `DataSet.get` with an integer index wraps negative indices: for
`-channelCount ≤ index < 0` it returns the channel at position
`channelCount + index` rather than reporting a nonexistent channel, and for
`index ≥ channelCount` it raises `ValueError`. -/
theorem dataset_get_negative_index {α : Type} (channels : List α) (index : ℤ) :
    (-(channels.length : ℤ) ≤ index → index < 0 →
      ∃ c, channels.get? (index + channels.length).toNat = some c ∧
        DataSetPy.get channels index = .ok c) ∧
    ((channels.length : ℤ) ≤ index →
      DataSetPy.get channels index = .error .valueError) := by
  constructor
  · intro h1 h2
    have hlt : index < (channels.length : ℤ) := by omega
    have hn : (index + channels.length).toNat < channels.length := by omega
    obtain ⟨c, hc⟩ : ∃ c, channels.get? (index + channels.length).toNat = some c := by
      rw [List.get?_eq_getElem?]
      exact ⟨channels[(index + channels.length).toNat], List.getElem?_eq_getElem hn⟩
    refine ⟨c, hc, ?_⟩
    unfold DataSetPy.get DataSetPy.pyIndex
    rw [if_pos hlt, if_neg (by omega), if_pos (by omega), hc]
  · intro h
    unfold DataSetPy.get
    rw [if_neg (by omega)]

/-- C10 witness: on the three-channel list `[10, 20, 30]`, index `-1`
returns the last channel and index `3` raises `ValueError`. -/
theorem dataset_get_negative_index_witness :
    (∃ c, ([10, 20, 30] : List ℕ).get?
        (((-1 : ℤ) + (([10, 20, 30] : List ℕ).length : ℤ)).toNat) = some c ∧
      DataSetPy.get ([10, 20, 30] : List ℕ) (-1) = .ok c) ∧
    DataSetPy.get ([10, 20, 30] : List ℕ) 3 = .error .valueError :=
  ⟨(dataset_get_negative_index ([10, 20, 30] : List ℕ) (-1)).1 (by decide) (by decide),
   (dataset_get_negative_index ([10, 20, 30] : List ℕ) 3).2 (by decide)⟩
